import Mathlib

/-!
Verification development for the zohobot repository: a shallow embedding of
the agent orchestration and credential-refresh subsystem (src/agent.py,
src/tools.py, src/zoho_client.py, src/cliq_integration.py, src/config.py),
with theorems settling the stated behavioural properties.

Python strings are modelled as lists of characters (`PyStr`); Python dicts
holding resource fields are modelled as structures of optional fields
(absent key = `none`); exceptions are modelled with an explicit exception
type `PyExn` and `Except` results.
-/

/-- Python string: a sequence of characters. -/
abbrev PyStr := List Char

/-- Build a `PyStr` from a Lean string literal. -/
def pyStr (s : String) : PyStr := s.data

/-- The apostrophe character (code point 39), used in several of the
source format strings. -/
def apos : Char := Char.ofNat 39

/-- Python `str.lower()`, restricted to the ASCII lowering that the
claims exercise. -/
def pyLower (s : PyStr) : PyStr := s.map Char.toLower

/-- Does `hay` start with `needle`?  Helper for the Python `in` operator. -/
def pyStartsWith : PyStr → PyStr → Bool
  | _, [] => true
  | [], _ :: _ => false
  | c :: cs, d :: ds => c == d && pyStartsWith cs ds

/-- The Python substring operator `needle in hay`. -/
def pyContains (hay needle : PyStr) : Bool :=
  match hay with
  | [] => needle.isEmpty
  | c :: rest => pyStartsWith (c :: rest) needle || pyContains rest needle

/-- Python truthiness of an optional string: `None` and the empty string
are falsy. -/
def optTruthyS (o : Option PyStr) : Bool :=
  match o with
  | none => false
  | some s => !s.isEmpty

/-- Python `dict.get(key, default)` for a string-valued field. -/
def pyGetS (o : Option PyStr) (d : PyStr) : PyStr := o.getD d

/-- Python slice `l[:n]`, including the negative-index convention. -/
def pyTake (l : List α) (n : Int) : List α :=
  if 0 ≤ n then l.take n.toNat else l.take (l.length - (-n).toNat)

/-- The exceptions that arise in the embedded code paths:
`ZohoAPIError` and `ZohoAuthError` from src/zoho_client.py, plus the
built-in `AttributeError` and `KeyError` that Python raises for a missing
attribute or a missing dict key. -/
inductive PyExn where
  | zohoAPIError (msg : PyStr)
  | zohoAuthError (msg : PyStr)
  | attributeError (attr : PyStr)
  | keyError (key : PyStr)
deriving DecidableEq

/-- Python `str(e)` for the exceptions above.  The two Zoho exceptions
carry their constructor message; the built-ins render the missing name. -/
def pyExnStr : PyExn → PyStr
  | PyExn.zohoAPIError m => m
  | PyExn.zohoAuthError m => m
  | PyExn.attributeError a =>
      apos :: pyStr "ZohoProjectsClient" ++ apos :: pyStr " object has no attribute " ++ apos :: a ++ [apos]
  | PyExn.keyError k => apos :: k ++ [apos]

/-- Is the result a raised (uncaught) exception? -/
def resultIsError : Except PyExn PyStr → Bool
  | Except.error _ => true
  | Except.ok _ => false

/-- Is the result a raised `ZohoAuthError`? -/
def resultIsAuthError : Except PyExn PyStr → Bool
  | Except.error (PyExn.zohoAuthError _) => true
  | _ => false

/-- Is the result a textual (successfully returned) string? -/
def isTextualResult : Except PyExn PyStr → Bool
  | Except.ok _ => true
  | Except.error _ => false

/-- The fallback response used by `ZohoProjectsAgent.chat` when the
executor result has no `output` key (src/agent.py line 142). -/
def chatDefaultApology : PyStr :=
  pyStr "I apologize, but I couldn" ++ apos :: pyStr "t process your request."

/-- `ZohoProjectsAgent.chat` (src/agent.py lines 129-152): the whole
exchange runs inside `try`; any exception is caught and rendered as
`"An error occurred: " + str(e)`; otherwise the `output` entry of the
executor result is returned, with an apology default when absent. -/
def chatResult (invokeOutcome : Except PyExn (Option PyStr)) : PyStr :=
  match invokeOutcome with
  | Except.error e => pyStr "An error occurred: " ++ pyExnStr e
  | Except.ok out => out.getD chatDefaultApology

/-- The token cache fields of `ZohoProjectsClient` (src/zoho_client.py
lines 33-34): `_access_token` and `_token_expires_at`.  Timestamps are
integers. -/
structure ClientTokenState where
  accessToken : Option PyStr
  tokenExpiresAt : Option Int
deriving DecidableEq

/-- The decoded JSON body of a token-refresh response: the
`access_token` key may be absent, and `expires_in` is read with
`.get("expires_in", 3600)`. -/
structure TokenBody where
  accessTokenField : Option PyStr
  expiresInField : Option Int
deriving DecidableEq

/-- Outcome of the HTTP exchange inside `_refresh_access_token`:
`reqError` covers every `requests.exceptions.RequestException` (network
failure, the non-2xx raised by `raise_for_status`, and an undecodable
JSON body); `ok` is a decoded JSON body. -/
inductive TokenResp where
  | reqError (msg : PyStr)
  | ok (body : TokenBody)
deriving DecidableEq

/-- `ZohoProjectsClient._refresh_access_token` (src/zoho_client.py lines
36-63).  A `RequestException` is caught and re-raised as
`ZohoAuthError("Token refresh failed: " + str(e))`.  A decoded body
missing `access_token` raises `KeyError` at the subscript on line 52,
which the `except` clause does not catch.  On success both cache fields
are set, with a 300-second safety margin subtracted from `expires_in`.
In every failure path the cache fields are left untouched. -/
def refreshAccessToken (now : Int) (resp : TokenResp) (st : ClientTokenState) :
    Except PyExn PyStr × ClientTokenState :=
  match resp with
  | TokenResp.reqError m =>
      (Except.error (PyExn.zohoAuthError (pyStr "Token refresh failed: " ++ m)), st)
  | TokenResp.ok body =>
      match body.accessTokenField with
      | none => (Except.error (PyExn.keyError (pyStr "access_token")), st)
      | some tok =>
          let expiresIn := body.expiresInField.getD 3600
          (Except.ok tok, { accessToken := some tok, tokenExpiresAt := some (now + (expiresIn - 300)) })

/-- `ZohoProjectsClient._get_access_token` (src/zoho_client.py lines
65-72): refresh when no token is cached (Python truthiness: `None` or
empty), no expiry is cached, or `now >= expiry`; otherwise return the
cached token.  The final `Nat` counts the refresh network exchanges
performed by this call. -/
def getAccessToken (now : Int) (resp : TokenResp) (st : ClientTokenState) :
    (Except PyExn PyStr × ClientTokenState) × Nat :=
  match st.accessToken, st.tokenExpiresAt with
  | some tok, some exp =>
      if tok.isEmpty || decide (exp ≤ now) then (refreshAccessToken now resp st, 1)
      else ((Except.ok tok, st), 0)
  | _, _ => (refreshAccessToken now resp st, 1)

/-- The shared exception-handling shape of every tool `_run` in
src/tools.py: the body runs inside `try`, and the single handler
`except ZohoAPIError as e` returns a formatted error string.  Any other
exception (including `ZohoAuthError`) propagates unchanged. -/
def toolCatchAPIError (onAPIError : PyStr → PyStr) (body : Except PyExn PyStr) :
    Except PyExn PyStr :=
  match body with
  | Except.error (PyExn.zohoAPIError m) => Except.ok (onAPIError m)
  | r => r

/-- The fields of a project dict that the embedded code reads
(src/tools.py, src/zoho_client.py); an absent key is `none`. -/
structure Project where
  name : Option PyStr
  id : Option PyStr
  status : Option PyStr
  description : Option PyStr
deriving DecidableEq

/-- The fields of a task dict that the embedded code reads (named
`ZTask` because `Task` is taken by the Lean core library).
`statusName` stands for the nested `task.get("status", {}).get("name")`,
and `percentComplete` is the rendered `percent_complete` value. -/
structure ZTask where
  name : Option PyStr
  id : Option PyStr
  statusName : Option PyStr
  priority : Option PyStr
  percentComplete : Option PyStr
deriving DecidableEq

/-- `ZohoProjectsClient.search_projects` (src/zoho_client.py lines
253-257): filter the fetched collection by
`query.lower() in p.get("name", "").lower()`.  The collection argument
is what `get_all_projects()` returned. -/
def search_projects (projects : List Project) (query : PyStr) : List Project :=
  projects.filter (fun p => pyContains (pyLower (pyGetS p.name [])) (pyLower query))

/-- `ZohoProjectsClient.search_tasks` (src/zoho_client.py lines
259-262): the same filter over the tasks of one project. -/
def search_tasks (tasks : List ZTask) (query : PyStr) : List ZTask :=
  tasks.filter (fun t => pyContains (pyLower (pyGetS t.name [])) (pyLower query))

/-- One project line of the `search_projects` tool output
(src/tools.py lines 185-190). -/
def formatProjectLine (p : Project) : PyStr :=
  pyStr "• **" ++ pyGetS p.name (pyStr "Unknown") ++ pyStr "** (ID: " ++
  pyGetS p.id (pyStr "N/A") ++ pyStr ")\n" ++
  pyStr "  Status: " ++ pyGetS p.status (pyStr "Unknown") ++ pyStr "\n" ++
  (if optTruthyS p.description then
    pyStr "  Description: " ++ (pyGetS p.description []).take 100 ++ pyStr "...\n"
  else []) ++ pyStr "\n"

/-- The `try` body of `ProjectSearchTool._run` (src/tools.py lines
174-195).  `fetched` is the outcome of the `get_all_projects()` HTTP
call performed inside `search_projects`; an exception raised there flows
out of the body. -/
def projectSearchBody (query : PyStr) (limit : Option Int)
    (fetched : Except PyExn (List Project)) : Except PyExn PyStr :=
  match fetched with
  | Except.error e => Except.error e
  | Except.ok allProjects =>
      let found := search_projects allProjects query
      if found.isEmpty then
        Except.ok (pyStr "No projects found matching " ++ apos :: query ++ [apos])
      else
        let shown := match limit with
          | some l => if l != 0 then pyTake found l else found
          | none => found
        let header := pyStr "Found " ++ pyStr (toString shown.length) ++
          pyStr " projects matching " ++ apos :: query ++ apos :: pyStr ":\n\n"
        let listing := shown.foldl (fun acc p => acc ++ formatProjectLine p) header
        let trailer := match limit with
          | some l => if (Int.ofNat shown.length == l) && (l != 0) then
              pyStr "(Showing first " ++ pyStr (toString l) ++ pyStr " results)\n"
            else []
          | none => []
        Except.ok (listing ++ trailer)

/-- `ProjectSearchTool._run` (src/tools.py lines 174-198): the body
wrapped in the `except ZohoAPIError` handler returning
`"Error searching projects: " + str(e)`. -/
def projectSearchRun (query : PyStr) (limit : Option Int)
    (fetched : Except PyExn (List Project)) : Except PyExn PyStr :=
  toolCatchAPIError (fun m => pyStr "Error searching projects: " ++ m)
    (projectSearchBody query limit fetched)

/-- The methods defined on `ZohoProjectsClient`, transcribed from
src/zoho_client.py. -/
def zohoClientMethodNames : List String :=
  ["_refresh_access_token", "_get_access_token", "_make_request",
   "get_all_projects", "get_project_details", "create_project", "update_project",
   "get_all_tasks", "get_task_details", "create_task", "update_task", "delete_task",
   "get_all_tasklists", "create_tasklist", "update_tasklist", "delete_tasklist",
   "get_time_logs", "get_task_time_logs", "add_time_log", "update_time_log",
   "delete_time_log", "search_projects", "search_tasks"]

/-- Python attribute lookup of a method on the client: a name not
defined on the class raises `AttributeError` at the lookup itself,
before any call happens. -/
def pyGetAttr (methods : List String) (m : String) : Except PyExn Unit :=
  if methods.contains m then Except.ok () else Except.error (PyExn.attributeError (pyStr m))

/-- The filters dict built by `GetAllTimeLogsTool._run`
(src/tools.py lines 577-604) before the client call. -/
structure AllTimeLogsFilters where
  billStatus : PyStr
  componentType : PyStr
  usersList : PyStr
  viewType : PyStr
  customDate : Option (PyStr × PyStr)
  date : Option PyStr
  range : Option Int
deriving DecidableEq

/-- Build the filters exactly as the source does: fixed
`bill_status`/`component_type`, the thread-local user id or `"all"`
(Python truthiness), the three-way date branch, and `range` from a
truthy `limit`. -/
def buildAllTimeLogsFilters (userId : Option PyStr) (limit : Option Int)
    (startDate endDate : Option PyStr) (today : PyStr) : AllTimeLogsFilters :=
  let users := match userId with
    | some u => if u.isEmpty then pyStr "all" else u
    | none => pyStr "all"
  let base : AllTimeLogsFilters :=
    { billStatus := pyStr "All", componentType := pyStr "task", usersList := users,
      viewType := [], customDate := none, date := none, range := none }
  let dated :=
    if optTruthyS startDate && optTruthyS endDate then
      { base with viewType := pyStr "custom_date",
                  customDate := some (startDate.getD [], endDate.getD []) }
    else if optTruthyS startDate then
      { base with viewType := pyStr "day", date := some (startDate.getD []) }
    else
      { base with viewType := pyStr "week", date := some today }
  match limit with
  | some l => if l != 0 then { dated with range := some l } else dated
  | none => dated

/-- The `try` body of `GetAllTimeLogsTool._run` (src/tools.py lines
569-674): build the filters, then look up `get_my_time_logs` on the
client.  `call` stands for whatever that method would do if it existed;
the `Nat` counts HTTP requests issued.  The lookup happens before any
request. -/
def getAllTimeLogsBody (userId : Option PyStr) (limit : Option Int)
    (startDate endDate : Option PyStr) (today : PyStr)
    (call : AllTimeLogsFilters → Except PyExn PyStr × Nat) : Except PyExn PyStr × Nat :=
  let filters := buildAllTimeLogsFilters userId limit startDate endDate today
  match pyGetAttr zohoClientMethodNames "get_my_time_logs" with
  | Except.error e => (Except.error e, 0)
  | Except.ok _ => call filters

/-- `GetAllTimeLogsTool._run` (src/tools.py lines 569-677): the body
wrapped in the `except ZohoAPIError` handler.  An `AttributeError` is
not a `ZohoAPIError`, so the handler leaves it alone. -/
def getAllTimeLogsRun (userId : Option PyStr) (limit : Option Int)
    (startDate endDate : Option PyStr) (today : PyStr)
    (call : AllTimeLogsFilters → Except PyExn PyStr × Nat) : Except PyExn PyStr × Nat :=
  let r := getAllTimeLogsBody userId limit startDate endDate today call
  (toolCatchAPIError (fun m => pyStr "Error getting all time logs: " ++ m) r.fst, r.snd)

/-- A JSON-serialisable value placed in an outgoing request body. -/
inductive PyVal where
  | s (v : PyStr)
  | i (v : Int)
deriving DecidableEq

/-- The `task_data` dict built by `UpdateTaskTool._run` (src/tools.py
lines 422-431), in source insertion order.  `name`, `description` and
`priority` are guarded by Python truthiness (`if name:`), while
`percent_complete` is guarded by `is not None`. -/
def buildUpdateTaskData (name description : Option PyStr) (percentComplete : Option Int)
    (priority : Option PyStr) : List (String × PyVal) :=
  (if optTruthyS name then [("name", PyVal.s (name.getD []))] else []) ++
  (if optTruthyS description then [("description", PyVal.s (description.getD []))] else []) ++
  (match percentComplete with
   | some pc => [("percent_complete", PyVal.i pc)]
   | none => []) ++
  (if optTruthyS priority then [("priority", PyVal.s (priority.getD []))] else [])

/-- The success message of `UpdateTaskTool._run` (src/tools.py lines
439-445), echoing fields of the task returned by the API. -/
def formatUpdatedTask (task : ZTask) : PyStr :=
  pyStr "✅ **Task updated successfully!**\n\n" ++
  pyStr "**Name:** " ++ pyGetS task.name (pyStr "Unknown") ++ pyStr "\n" ++
  pyStr "**ID:** " ++ pyGetS task.id (pyStr "N/A") ++ pyStr "\n" ++
  pyStr "**Status:** " ++ pyGetS task.statusName (pyStr "Unknown") ++ pyStr "\n" ++
  pyStr "**Priority:** " ++ pyGetS task.priority (pyStr "None") ++ pyStr "\n" ++
  pyStr "**Completion:** " ++ pyGetS task.percentComplete (pyStr "0") ++ pyStr "%\n"

/-- `UpdateTaskTool._run` (src/tools.py lines 418-451).  Returns the
tool result together with the request body sent to
`ZohoProjectsClient.update_task` (`none` when no request was issued
because no update data was provided).  `apiOutcome` is the outcome of
that call: the client returns `tasks[0] if tasks else {}`, so an empty
dict is modelled as `Except.ok none`. -/
def updateTaskRun (projectId taskId : PyStr) (name description : Option PyStr)
    (percentComplete : Option Int) (priority : Option PyStr)
    (apiOutcome : Except PyExn (Option ZTask)) :
    Except PyExn PyStr × Option (List (String × PyVal)) :=
  let td := buildUpdateTaskData name description percentComplete priority
  if td.isEmpty then
    (Except.ok (pyStr "❌ No update data provided."), none)
  else
    let result := toolCatchAPIError (fun m => pyStr "❌ Error updating task: " ++ m)
      (match apiOutcome with
       | Except.error e => Except.error e
       | Except.ok none => Except.ok (pyStr "❌ Failed to update task. No data returned.")
       | Except.ok (some task) => Except.ok (formatUpdatedTask task))
    (result, some td)

/-- The shape of a Cliq webhook reply built by
`CliqIntegration._format_response`: either a plain-text reply or a
one-section card carrying a title, a theme, and the card text. -/
inductive CliqResp where
  | plain (text : PyStr)
  | card (text : PyStr) (title : PyStr) (theme : PyStr) (cardText : PyStr)
deriving DecidableEq

/-- The greeting text of the card branch
(`f"Hi {user_name}! Here's the information you requested:"`). -/
def cliqGreeting (userName : PyStr) : PyStr :=
  pyStr "Hi " ++ userName ++ pyStr "! Here" ++ apos :: pyStr "s the information you requested:"

/-- `CliqIntegration._format_response` (src/cliq_integration.py lines
128-154): at most 4000 characters passes through unchanged under the
plain-text key; a longer response becomes a card whose text is the
4000-character slice plus the `"..."` marker (the inner conditional is
kept as written in the source). -/
def formatCliqResponse (response : PyStr) (userName : PyStr) : CliqResp :=
  let maxLength := 4000
  if response.length ≤ maxLength then
    CliqResp.plain response
  else
    CliqResp.card (cliqGreeting userName) (pyStr "Zoho Projects Response")
      (pyStr "modern-inline")
      (response.take maxLength ++ (if maxLength < response.length then pyStr "..." else []))

/-- The role of one conversation turn. -/
inductive Role where
  | human
  | ai
deriving DecidableEq

/-- One stored conversation message. -/
structure Turn where
  role : Role
  content : PyStr
deriving DecidableEq

/-- Modelled from the spec: conversation memory windowing.  The buffer
itself is langchain's `ConversationBufferWindowMemory`, which is not
part of this repository; src/agent.py lines 37-42 configure it with
`k = 10` exchanges.  One completed exchange appends a human turn and an
assistant turn. -/
def exchangeTurns (e : PyStr × PyStr) : List Turn :=
  [{ role := Role.human, content := e.fst }, { role := Role.ai, content := e.snd }]

/-- Modelled from the spec: appending one completed exchange to the end
of the buffer. -/
def memAppendExchange (buf : List Turn) (e : PyStr × PyStr) : List Turn :=
  buf ++ exchangeTurns e

/-- Modelled from the spec: the buffer after appending a whole sequence
of exchanges to an initially empty memory. -/
def memBuffer (exchanges : List (PyStr × PyStr)) : List Turn :=
  exchanges.foldl memAppendExchange []

/-- Modelled from the spec: the snapshot passed to the model, the last
`2 * k` stored turns (`messages[-2 * k:]`, the whole buffer when it is
shorter, empty when `k = 0`). -/
def windowSnapshot (k : Nat) (buf : List Turn) : List Turn :=
  if k = 0 then [] else buf.drop (buf.length - 2 * k)

/-- The configured memory window: 10 exchanges (src/agent.py line 39). -/
def defaultWindowK : Nat := 10

/-- Modelled from the spec: one decision of the model inside the agent
loop, either a final textual answer or a request to run one more tool. -/
inductive ModelAction where
  | finish (text : PyStr)
  | callTool (toolName : PyStr) (args : PyStr)
deriving DecidableEq

/-- Does the action request another tool call? -/
def isToolCall : ModelAction → Bool
  | ModelAction.callTool _ _ => true
  | ModelAction.finish _ => false

/-- The fallback output produced when the round ceiling is reached. -/
def stoppedMessage : PyStr :=
  pyStr "Agent stopped due to iteration limit or time limit."

/-- Modelled from the spec: the bounded agent loop driven by
`AgentExecutor` (a langchain collaborator, not part of this
repository).  Each round asks the model for its next action given the
round index (standing for the accumulated scratch context); a tool
request consumes one round of the remaining budget; exhausting the
budget yields the fallback message.  The returned `Nat` is the number
of rounds consumed. -/
def runAgentRounds (act : Nat → ModelAction) (tool : PyStr → PyStr → PyStr) :
    Nat → Nat → PyStr × Nat
  | round, 0 => (stoppedMessage, round)
  | round, Nat.succ fuel =>
      match act round with
      | ModelAction.finish t => (t, round + 1)
      | ModelAction.callTool n a =>
          let _ := tool n a
          runAgentRounds act tool (round + 1) fuel

/-- Modelled from the spec: one `agent_executor.invoke` call with the
configured round ceiling (`max_iterations`, src/agent.py line 69). -/
def agentExecutorInvoke (act : Nat → ModelAction) (tool : PyStr → PyStr → PyStr)
    (maxIterations : Nat) : PyStr × Nat :=
  runAgentRounds act tool 0 maxIterations

/-- The configured round ceiling: `Settings.max_iterations` defaults to
10 (src/config.py line 35). -/
def defaultMaxIterations : Nat := 10

/-- A model that requests another tool call on every round. -/
def alwaysToolAct : Nat → ModelAction :=
  fun _ => ModelAction.callTool (pyStr "search_projects") (pyStr "")

/-- A trivial tool executor used to instantiate the loop. -/
def echoTool : PyStr → PyStr → PyStr := fun _ _ => pyStr "ok"

/-- A sample project named "Design Sprint". -/
def designSprintProject : Project :=
  { name := some (pyStr "Design Sprint"), id := some (pyStr "1001"),
    status := some (pyStr "active"), description := none }

/-- A sample project named "DESIGN-2". -/
def design2Project : Project :=
  { name := some (pyStr "DESIGN-2"), id := some (pyStr "1002"),
    status := some (pyStr "active"), description := none }

/-- A sample project whose name does not mention design. -/
def marketingProject : Project :=
  { name := some (pyStr "Marketing"), id := some (pyStr "1003"),
    status := some (pyStr "active"), description := none }

/-- The refresh condition of `_get_access_token` as a predicate on the
cached state: no (truthy) token, no expiry, or expiry reached. -/
def needsRefresh (st : ClientTokenState) (now : Int) : Bool :=
  match st.accessToken, st.tokenExpiresAt with
  | some tok, some exp => tok.isEmpty || decide (exp ≤ now)
  | _, _ => true

/-- A sample task as returned by the API after a 50-percent update. -/
def sampleUpdatedTask : ZTask :=
  { name := some (pyStr "Review proposal"), id := some (pyStr "7"),
    statusName := some (pyStr "Open"), priority := some (pyStr "High"),
    percentComplete := some (pyStr "50") }

theorem pyStartsWith_nil (hay : PyStr) : pyStartsWith hay [] = true := by
  cases hay <;> rfl

theorem pyStartsWith_append_self : ∀ (a t : PyStr), pyStartsWith (a ++ t) a = true := by
  intro a
  induction a with
  | nil => intro t; exact pyStartsWith_nil t
  | cons c cs ih => intro t; simp [pyStartsWith, ih]

theorem pyContains_right (x hay seg : PyStr) (h : pyContains hay seg = true) :
    pyContains (x ++ hay) seg = true := by
  induction x with
  | nil => simpa using h
  | cons c cs ih => simp [pyContains] at ih ⊢; right; exact ih

theorem pyContains_append_middle (s seg t : PyStr) :
    pyContains (s ++ (seg ++ t)) seg = true := by
  apply pyContains_right
  cases seg with
  | nil => cases t <;> rfl
  | cons c cs => simp [pyContains]; left; exact pyStartsWith_append_self (c :: cs) t

/-- C1: `chat` is total.  Every exchange outcome is rendered as a
string: an exception caught at the loop boundary becomes
`"An error occurred: <message>"` with the exception text, and a normal
outcome returns the output text (or the fixed apology when the result
has no output entry). -/
theorem chat_total_error_boundary (e : PyExn) (t : PyStr) :
    chatResult (Except.error e) = pyStr "An error occurred: " ++ pyExnStr e ∧
    chatResult (Except.ok (some t)) = t ∧
    chatResult (Except.ok none) = chatDefaultApology :=
  ⟨rfl, rfl, rfl⟩

/-- C2 counterexample: when the client call inside the
`search_projects` tool raises `ZohoAuthError`, the tool does NOT return
a textual result — the exception escapes the tool boundary, because the
handler catches only `ZohoAPIError`. -/
theorem tool_failure_isolation_counterexample :
    isTextualResult (projectSearchRun (pyStr "design") none
      (Except.error (PyExn.zohoAuthError (pyStr "Token refresh failed: boom")))) = false :=
  rfl

/-- C2 amended: a `ZohoAPIError` from the client is caught inside the
tool and returned as a textual error result; a `ZohoAuthError` escapes
the tool unchanged (the handler shared by every tool catches only
`ZohoAPIError`) and is then caught at the `chat` boundary, which still
returns a string. -/
theorem tool_failure_isolation_amended (query : PyStr) (limit : Option Int) (m : PyStr)
    (onAPIError : PyStr → PyStr) :
    projectSearchRun query limit (Except.error (PyExn.zohoAPIError m)) =
      Except.ok (pyStr "Error searching projects: " ++ m) ∧
    projectSearchRun query limit (Except.error (PyExn.zohoAuthError m)) =
      Except.error (PyExn.zohoAuthError m) ∧
    toolCatchAPIError onAPIError (Except.error (PyExn.zohoAPIError m)) =
      Except.ok (onAPIError m) ∧
    toolCatchAPIError onAPIError (Except.error (PyExn.zohoAuthError m)) =
      Except.error (PyExn.zohoAuthError m) ∧
    chatResult (Except.error (PyExn.zohoAuthError m)) = pyStr "An error occurred: " ++ m :=
  ⟨rfl, rfl, rfl, rfl, rfl⟩

/-- C3: for every argument assignment, `get_all_time_logs` fails with
`AttributeError` at the `get_my_time_logs` attribute lookup — a method
`ZohoProjectsClient` does not define — before issuing any HTTP request
(the count is 0), whatever the missing method would have done; the
`except ZohoAPIError` handler does not catch it, so the failure escapes
the tool boundary and the tool never produces a textual result. -/
theorem get_all_time_logs_attribute_error (userId : Option PyStr) (limit : Option Int)
    (startDate endDate : Option PyStr) (today : PyStr)
    (call : AllTimeLogsFilters → Except PyExn PyStr × Nat) :
    getAllTimeLogsRun userId limit startDate endDate today call =
      (Except.error (PyExn.attributeError (pyStr "get_my_time_logs")), 0) ∧
    isTextualResult (getAllTimeLogsRun userId limit startDate endDate today call).fst = false := by
  have h : zohoClientMethodNames.contains "get_my_time_logs" = false := by decide
  have hmem : "get_my_time_logs" ∉ zohoClientMethodNames := by decide
  constructor
  · simp [getAllTimeLogsRun, getAllTimeLogsBody, pyGetAttr, h, hmem, toolCatchAPIError]
  · simp [getAllTimeLogsRun, getAllTimeLogsBody, pyGetAttr, h, hmem, toolCatchAPIError,
      isTextualResult]

theorem runAgentRounds_always_tool (act : Nat → ModelAction) (tool : PyStr → PyStr → PyStr)
    (h : ∀ r, isToolCall (act r) = true) :
    ∀ fuel round, runAgentRounds act tool round fuel = (stoppedMessage, round + fuel) := by
  intro fuel
  induction fuel with
  | zero => intro round; simp [runAgentRounds]
  | succ n ih =>
      intro round
      cases hact : act round with
      | finish t => exact absurd (h round) (by simp [isToolCall, hact])
      | callTool nm a =>
          have := ih (round + 1)
          simp [runAgentRounds, hact, this]
          omega

/-- C4: a model that requests another tool call on every round makes
the loop terminate (the loop function is total) after consuming exactly
the configured ceiling of rounds, returning the fallback string — in
particular with the default ceiling of 10. -/
theorem round_ceiling_terminates (act : Nat → ModelAction) (tool : PyStr → PyStr → PyStr)
    (ceiling : Nat) (h : ∀ r, isToolCall (act r) = true) :
    agentExecutorInvoke act tool ceiling = (stoppedMessage, ceiling) ∧
    agentExecutorInvoke act tool defaultMaxIterations = (stoppedMessage, defaultMaxIterations) := by
  constructor
  · simpa [agentExecutorInvoke] using runAgentRounds_always_tool act tool h ceiling 0
  · simpa [agentExecutorInvoke] using
      runAgentRounds_always_tool act tool h defaultMaxIterations 0

/-- C4 witness: the always-tool model against the default ceiling. -/
theorem round_ceiling_terminates_witness :
    agentExecutorInvoke alwaysToolAct echoTool 10 = (stoppedMessage, 10) :=
  (round_ceiling_terminates alwaysToolAct echoTool 10 (fun _ => rfl)).1

theorem foldl_memAppendExchange (es : List (PyStr × PyStr)) :
    ∀ acc : List Turn, es.foldl memAppendExchange acc = acc ++ es.foldl memAppendExchange [] := by
  induction es with
  | nil => intro acc; simp
  | cons e tl ih =>
      intro acc
      rw [List.foldl_cons, List.foldl_cons, ih (memAppendExchange acc e),
        ih (memAppendExchange [] e)]
      simp [memAppendExchange, List.append_assoc]

theorem memBuffer_cons (e : PyStr × PyStr) (tl : List (PyStr × PyStr)) :
    memBuffer (e :: tl) = exchangeTurns e ++ memBuffer tl := by
  rw [memBuffer, List.foldl_cons, foldl_memAppendExchange]
  simp [memAppendExchange, memBuffer]

theorem memBuffer_length (es : List (PyStr × PyStr)) :
    (memBuffer es).length = 2 * es.length := by
  induction es with
  | nil => rfl
  | cons e tl ih =>
      rw [memBuffer_cons]
      simp [exchangeTurns, ih]
      omega

theorem memBuffer_drop (es : List (PyStr × PyStr)) :
    ∀ j, (memBuffer es).drop (2 * j) = memBuffer (es.drop j) := by
  induction es with
  | nil => intro j; simp [memBuffer]
  | cons e tl ih =>
      intro j
      cases j with
      | zero => simp
      | succ j' =>
          have h2 : 2 * (j' + 1) = 2 * j' + 1 + 1 := by omega
          rw [memBuffer_cons, h2]
          simp [exchangeTurns]
          exact ih j'

/-- C5: after appending N exchanges with N greater than the window K,
the snapshot passed to the model is exactly the turns of the most
recent K exchanges in oldest-first order (the older turns having been
dropped from the front, FIFO), and its length is exactly 2K — in
particular at most 2K. -/
theorem window_bound_snapshot (k : Nat) (es : List (PyStr × PyStr))
    (hk : 0 < k) (hlen : k < es.length) :
    windowSnapshot k (memBuffer es) = memBuffer (es.drop (es.length - k)) ∧
    (windowSnapshot k (memBuffer es)).length = 2 * k := by
  have hk0 : ¬ (k = 0) := by omega
  have hd : (memBuffer es).length - 2 * k = 2 * (es.length - k) := by
    rw [memBuffer_length]; omega
  constructor
  · rw [windowSnapshot, if_neg hk0, hd, memBuffer_drop]
  · rw [windowSnapshot, if_neg hk0, List.length_drop, memBuffer_length]
    omega

/-- C5 witness: two exchanges against a window of one exchange keep
only the turns of the second exchange. -/
theorem window_bound_snapshot_witness :
    windowSnapshot 1 (memBuffer [(pyStr "a", pyStr "b"), (pyStr "c", pyStr "d")]) =
      memBuffer [(pyStr "c", pyStr "d")] := by
  have h := (window_bound_snapshot 1 [(pyStr "a", pyStr "b"), (pyStr "c", pyStr "d")]
    (by decide) (by decide)).1
  simpa using h

/-- C6: while the cached token is held and its (margin-adjusted) expiry
is still in the future, two successive `_get_access_token` calls both
return the cached token and perform zero refresh exchanges in total (at
most one); once the expiry has been reached, a call performs exactly
one refresh exchange and returns the newly obtained token. -/
theorem credential_refresh_idempotence (tok : PyStr) (exp : Int) (now1 now2 now3 : Int)
    (resp1 resp2 : TokenResp) (tokNew : PyStr) (ei : Int)
    (hne : tok.isEmpty = false) (h1 : now1 < exp) (h2 : now2 < exp) (h3 : exp ≤ now3) :
    getAccessToken now1 resp1 ⟨some tok, some exp⟩ = ((Except.ok tok, ⟨some tok, some exp⟩), 0) ∧
    getAccessToken now2 resp2
        (getAccessToken now1 resp1 ⟨some tok, some exp⟩).fst.snd =
      ((Except.ok tok, ⟨some tok, some exp⟩), 0) ∧
    (getAccessToken now1 resp1 ⟨some tok, some exp⟩).snd +
      (getAccessToken now2 resp2
        (getAccessToken now1 resp1 ⟨some tok, some exp⟩).fst.snd).snd ≤ 1 ∧
    getAccessToken now3 (TokenResp.ok ⟨some tokNew, some ei⟩) ⟨some tok, some exp⟩ =
      ((Except.ok tokNew, ⟨some tokNew, some (now3 + (ei - 300))⟩), 1) := by
  have d1 : decide (exp ≤ now1) = false := decide_eq_false (by omega)
  have d2 : decide (exp ≤ now2) = false := decide_eq_false (by omega)
  have e1 : getAccessToken now1 resp1 ⟨some tok, some exp⟩ =
      ((Except.ok tok, ⟨some tok, some exp⟩), 0) := by
    simp [getAccessToken, hne, d1]
  have e2 : getAccessToken now2 resp2 ⟨some tok, some exp⟩ =
      ((Except.ok tok, ⟨some tok, some exp⟩), 0) := by
    simp [getAccessToken, hne, d2]
  refine ⟨e1, ?_, ?_, ?_⟩
  · rw [e1]; exact e2
  · rw [e1]; simp [e2]
  · have d3 : decide (exp ≤ now3) = true := decide_eq_true h3
    simp [getAccessToken, hne, d3, refreshAccessToken]

/-- C6 witness: concrete valid-cache and expired-cache calls. -/
theorem credential_refresh_idempotence_witness :
    getAccessToken 1 (TokenResp.reqError []) ⟨some (pyStr "t"), some 1000⟩ =
      ((Except.ok (pyStr "t"), ⟨some (pyStr "t"), some 1000⟩), 0) ∧
    getAccessToken 2000 (TokenResp.ok ⟨some (pyStr "u"), some 3600⟩)
        ⟨some (pyStr "t"), some 1000⟩ =
      ((Except.ok (pyStr "u"), ⟨some (pyStr "u"), some (2000 + (3600 - 300))⟩), 1) := by
  have h := credential_refresh_idempotence (pyStr "t") 1000 1 2 2000
    (TokenResp.reqError []) (TokenResp.reqError []) (pyStr "u") 3600
    (by decide) (by decide) (by decide) (by decide)
  exact ⟨h.1, h.2.2.2⟩

/-- C7 counterexample: a 2xx refresh response whose decoded JSON body
lacks the `access_token` key makes `_refresh_access_token` fail with
`KeyError`, not `ZohoAuthError` — the claim that every refresh failure
surfaces as AuthError is false at this input. -/
theorem refresh_failure_counterexample :
    resultIsError (refreshAccessToken 0 (TokenResp.ok ⟨none, some 3600⟩) ⟨none, none⟩).fst = true ∧
    resultIsAuthError
      (refreshAccessToken 0 (TokenResp.ok ⟨none, some 3600⟩) ⟨none, none⟩).fst = false ∧
    (refreshAccessToken 0 (TokenResp.ok ⟨none, some 3600⟩) ⟨none, none⟩).fst =
      Except.error (PyExn.keyError (pyStr "access_token")) :=
  ⟨rfl, rfl, rfl⟩

/-- C7 amended: a refresh exchange failing as a `RequestException`
(network error, non-2xx response, undecodable body) surfaces as
`ZohoAuthError`; a decoded 2xx body missing `access_token` surfaces as
an uncaught `KeyError` instead.  In both failure cases the cached
credential fields are left unchanged, so no token is cached as valid;
a single `_get_access_token` call performs at most one refresh
exchange (no automatic retry), and whenever the cached state still
needs a refresh the next call performs exactly one fresh refresh. -/
theorem refresh_failure_amended (now now2 : Int) (st : ClientTokenState) (m : PyStr)
    (body : TokenBody) (resp2 resp3 : TokenResp)
    (hbody : body.accessTokenField = none) (hst : needsRefresh st now2 = true) :
    refreshAccessToken now (TokenResp.reqError m) st =
      (Except.error (PyExn.zohoAuthError (pyStr "Token refresh failed: " ++ m)), st) ∧
    refreshAccessToken now (TokenResp.ok body) st =
      (Except.error (PyExn.keyError (pyStr "access_token")), st) ∧
    (getAccessToken now resp3 st).snd ≤ 1 ∧
    (getAccessToken now2 resp2 st).snd = 1 := by
  refine ⟨rfl, ?_, ?_, ?_⟩
  · simp [refreshAccessToken, hbody]
  · rcases st with ⟨a, b⟩
    cases a <;> cases b <;> simp [getAccessToken] <;> split <;> simp
  · rcases st with ⟨a, b⟩
    cases a <;> cases b <;> simp_all [getAccessToken, needsRefresh]

/-- C7 witness: a failing refresh at an absent credential state. -/
theorem refresh_failure_amended_witness :
    refreshAccessToken 0 (TokenResp.reqError (pyStr "boom")) ⟨none, none⟩ =
      (Except.error (PyExn.zohoAuthError (pyStr "Token refresh failed: " ++ pyStr "boom")),
        (⟨none, none⟩ : ClientTokenState)) ∧
    (getAccessToken 0 (TokenResp.reqError (pyStr "boom")) ⟨none, none⟩).snd = 1 := by
  have h := refresh_failure_amended 0 0 ⟨none, none⟩ (pyStr "boom") ⟨none, some 3600⟩
    (TokenResp.reqError (pyStr "boom")) (TokenResp.reqError (pyStr "boom")) rfl rfl
  exact ⟨h.1, h.2.2.2⟩

/-- C8: `search_projects` (and `search_tasks`) keep exactly the items
of the fetched collection whose name contains the query as a
case-insensitive substring, in order; in particular the query "design"
matches the projects named "Design Sprint" and "DESIGN-2" and not
"Marketing". -/
theorem search_case_insensitive (projects : List Project) (tasks : List ZTask)
    (q : PyStr) (p : Project) (t : ZTask) :
    (p ∈ search_projects projects q ↔
      p ∈ projects ∧ pyContains (pyLower (pyGetS p.name [])) (pyLower q) = true) ∧
    (t ∈ search_tasks tasks q ↔
      t ∈ tasks ∧ pyContains (pyLower (pyGetS t.name [])) (pyLower q) = true) ∧
    search_projects [designSprintProject, design2Project, marketingProject] (pyStr "design") =
      [designSprintProject, design2Project] := by
  refine ⟨?_, ?_, ?_⟩
  · simp [search_projects, List.mem_filter]
  · simp [search_tasks, List.mem_filter]
  · decide

/-- C9: the webhook formatter passes a response of at most 4000
characters through unchanged under the plain-text key; a longer
response becomes a card whose text is a truncated prefix of the
response (the 4000-character slice, itself of length at most 4000 and a
prefix of the response) followed by the explicit `"..."` marker. -/
theorem long_output_formatting (resp user : PyStr) :
    (resp.length ≤ 4000 → formatCliqResponse resp user = CliqResp.plain resp) ∧
    (4000 < resp.length →
      formatCliqResponse resp user =
        CliqResp.card (cliqGreeting user) (pyStr "Zoho Projects Response")
          (pyStr "modern-inline") (resp.take 4000 ++ pyStr "...") ∧
      (resp.take 4000).length ≤ 4000 ∧
      resp.take 4000 ++ resp.drop 4000 = resp) := by
  constructor
  · intro h
    simp [formatCliqResponse, h]
  · intro h
    have hnot : ¬ resp.length ≤ 4000 := by omega
    refine ⟨?_, ?_, ?_⟩
    · simp [formatCliqResponse, hnot, h]
    · simp [List.length_take]
    · exact List.take_append_drop 4000 resp

/-- C9 witness: a short response passes through; a 4001-character
response becomes a truncated card. -/
theorem long_output_formatting_witness :
    ((pyStr "ok").length ≤ 4000 ∧
      formatCliqResponse (pyStr "ok") (pyStr "User") = CliqResp.plain (pyStr "ok")) ∧
    (4000 < (List.replicate 4001 'a').length ∧
      formatCliqResponse (List.replicate 4001 'a') (pyStr "User") =
        CliqResp.card (cliqGreeting (pyStr "User")) (pyStr "Zoho Projects Response")
          (pyStr "modern-inline") ((List.replicate 4001 'a').take 4000 ++ pyStr "...")) := by
  have hshort : (pyStr "ok").length ≤ 4000 := by decide
  have hlong : 4000 < (List.replicate 4001 'a').length := by
    rw [List.length_replicate]
    omega
  exact ⟨⟨hshort, (long_output_formatting (pyStr "ok") (pyStr "User")).1 hshort⟩,
    ⟨hlong, ((long_output_formatting (List.replicate 4001 'a') (pyStr "User")).2 hlong).1⟩⟩

/-- C10: invoking `update_task` with only `percent_complete = 50`
produces a request body holding exactly the `percent_complete` field
and no other task field, and the formatted tool result echoes the
completion "50%" of the task the API returned. -/
theorem partial_update_frame (pid tid : PyStr) (task : ZTask)
    (hpc : task.percentComplete = some (pyStr "50")) :
    buildUpdateTaskData none none (some 50) none = [("percent_complete", PyVal.i 50)] ∧
    (updateTaskRun pid tid none none (some 50) none (Except.ok (some task))).snd =
      some [("percent_complete", PyVal.i 50)] ∧
    (updateTaskRun pid tid none none (some 50) none (Except.ok (some task))).fst =
      Except.ok (formatUpdatedTask task) ∧
    pyContains (formatUpdatedTask task) (pyStr "50%") = true := by
  have htail : pyContains (pyStr "**Completion:** " ++ (pyStr "50" ++ pyStr "%\n"))
      (pyStr "50%") = true := by decide
  refine ⟨rfl, rfl, rfl, ?_⟩
  simp only [formatUpdatedTask, hpc, pyGetS, Option.getD_some, List.append_assoc]
  repeat (first | exact htail | apply pyContains_right)

/-- C10 witness: a concrete 50-percent update against a concrete
returned task. -/
theorem partial_update_frame_witness :
    (updateTaskRun (pyStr "1001") (pyStr "7") none none (some 50) none
        (Except.ok (some sampleUpdatedTask))).snd =
      some [("percent_complete", PyVal.i 50)] ∧
    pyContains (formatUpdatedTask sampleUpdatedTask) (pyStr "50%") = true := by
  have h := partial_update_frame (pyStr "1001") (pyStr "7") sampleUpdatedTask rfl
  exact ⟨h.2.1, h.2.2.2⟩
